import Mathlib

/-
Verification of the `@ionic-native/plugins/background-fetch` capability
proxy (`src/src/@ionic-native/plugins/background-fetch/index.ts`).

The repository contains a single declarative binding: an `@Injectable`
class `BackgroundFetch` whose five methods (`configure`, `start`, `stop`,
`finish`, `status`) have empty bodies and are rewritten by the `@Cordova`
decorator of `@ionic-native/core` into calls against a native capability
named by the `@Plugin` decorator's `pluginRef`.  The decorator machinery
itself is repository-external code not present under `src/`; it is
modelled here from the specification (each such definition carries a
`Modelled from the spec:` doc comment).  Everything else — the
configuration record, the `@Plugin` metadata literals, the method names,
the per-method `@Cordova` options and the declared method bodies — is
embedded directly from the source file.
-/

namespace BackgroundFetchSpec

/-- The `BackgroundFetchConfig` interface from the source: four optional
fields (`minimumFetchInterval`: number, `stopOnTerminate`, `startOnBoot`,
`forceReload`: booleans).  An absent field is `none`. -/
structure BackgroundFetchConfig where
  minimumFetchInterval : Option Int := none
  stopOnTerminate : Option Bool := none
  startOnBoot : Option Bool := none
  forceReload : Option Bool := none
  deriving DecidableEq

/-- Opaque JavaScript-like values crossing the bridge boundary.  The layer
under verification never inspects them. -/
inductive JSValue
  | undefined
  | num (n : Int)
  | boolean (b : Bool)
  | str (s : String)
  | config (c : BackgroundFetchConfig)
  deriving DecidableEq

/-- A positional argument of an outbound bridge call: either a plain
forwarded value, or one of the two completion callbacks the promise
wrapper supplies. -/
inductive BridgeArg
  | value (v : JSValue)
  | successCb
  | failureCb
  deriving DecidableEq

/-- The registration metadata carried by the `@Plugin` decorator. -/
structure PluginMeta where
  pluginName : String
  plugin : String
  pluginRef : String
  repo : String
  platforms : List String
  deriving DecidableEq

/-- The literal `@Plugin({...})` decorator arguments from the source. -/
def backgroundFetchPluginMeta : PluginMeta :=
  { pluginName := "BackgroundFetch"
    plugin := "cordova-plugin-background-fetch"
    pluginRef := "BackgroundFetch"
    repo := "https://github.com/transistorsoft/cordova-plugin-background-fetch"
    platforms := ["Android", "iOS"] }

/-- The per-method `@Cordova({...})` decorator options appearing in the
source: `callbackOrder: 'reverse'` on `configure`, `sync: true` on
`finish`, and no options on the rest. -/
structure CordovaOptions where
  callbackOrder : Option String := none
  sync : Bool := false
  deriving DecidableEq

/-- One outbound call to the external capability: the capability name it
addresses, the method name, and the positional argument list. -/
structure OutCall where
  pluginRef : String
  method : String
  args : List BridgeArg
  deriving DecidableEq

/-- Modelled from the spec: the `@Cordova` decorator machinery of
`@ionic-native/core` is not under `src/`.  Per the spec's external
interface section, methods are called by fixed name with positional
arguments and the success/failure callbacks in the standard positions;
`configure` uses a reversed callback-argument order convention (success
and failure callback positions swapped relative to the other methods);
a `sync: true` method is a fire-and-forget call with no callback. -/
def callbackArgs (opts : CordovaOptions) : List BridgeArg :=
  if opts.sync then []
  else if opts.callbackOrder = some "reverse" then
    [BridgeArg.failureCb, BridgeArg.successCb]
  else
    [BridgeArg.successCb, BridgeArg.failureCb]

/-- Modelled from the spec: the decorator translates one method invocation
into one outbound call against the capability named by `pluginRef`, with
the plain arguments forwarded verbatim in order followed by the callbacks
placed per `callbackArgs`. -/
def cordovaCall (meta : PluginMeta) (method : String) (opts : CordovaOptions)
    (args : List JSValue) : OutCall :=
  { pluginRef := meta.pluginRef
    method := method
    args := args.map BridgeArg.value ++ callbackArgs opts }

/-- A callback invocation performed by the external capability against one
pending operation: the success callback with a payload, the failure
callback with an error payload, or (for `configure`) a recurring
fetch-event delivery on the auxiliary channel. -/
inductive CapEvent
  | success (v : JSValue)
  | failure (e : JSValue)
  | fetch
  deriving DecidableEq

/-- Modelled from the spec: the promise wrapper of `@ionic-native/core`
settles on exactly one completion-callback invocation — the first success
or failure reported by the capability — resolving or rejecting with that
callback's payload verbatim; later invocations are ignored (a promise
never settles twice) and recurring fetch-event deliveries never settle
it.  `none` means the operation is still pending. -/
def promiseSettle : List CapEvent → Option (Except JSValue JSValue)
  | [] => none
  | CapEvent.success v :: _ => some (Except.ok v)
  | CapEvent.failure e :: _ => some (Except.error e)
  | CapEvent.fetch :: es => promiseSettle es

/-- The state of the capability proxy instance: per the spec it is
stateless beyond its registration metadata, so the metadata is all the
state there is. -/
structure ProxyState where
  meta : PluginMeta
  deriving DecidableEq

/-- The outcome of invoking one asynchronous proxy method: the outbound
calls it issued, the proxy state after the invocation, the number of
auxiliary recurring fetch-event channels it registered, and the pending
promise as a function from the capability's callback invocations to the
settlement. -/
structure AsyncInvocation where
  calls : List OutCall
  state : ProxyState
  fetchChannels : Nat
  result : List CapEvent → Option (Except JSValue JSValue)

/-- The outcome of invoking one synchronous (`sync: true`) proxy method:
the outbound calls, the state after, and the returned value (`Unit`:
no value is returned). -/
structure SyncInvocation where
  calls : List OutCall
  state : ProxyState
  value : Unit
  deriving DecidableEq

/-- The process-wide proxy handle, registered with the source's `@Plugin`
metadata. -/
def backgroundFetch : ProxyState := { meta := backgroundFetchPluginMeta }

/-- `configure(config)`: decorated with `@Cordova({ callbackOrder:
'reverse' })`; forwards the configuration record and establishes the
auxiliary fetch-event channel (the channel count is modelled from the
spec, which owns no delivery semantics for it). -/
def BackgroundFetch.configure (s : ProxyState) (config : BackgroundFetchConfig) :
    AsyncInvocation :=
  { calls := [cordovaCall s.meta "configure" { callbackOrder := some "reverse" }
      [JSValue.config config]]
    state := s
    fetchChannels := 1
    result := promiseSettle }

/-- `start()`: decorated with bare `@Cordova()`; no plain arguments. -/
def BackgroundFetch.start (s : ProxyState) : AsyncInvocation :=
  { calls := [cordovaCall s.meta "start" {} []]
    state := s
    fetchChannels := 0
    result := promiseSettle }

/-- `stop()`: decorated with bare `@Cordova()`; no plain arguments. -/
def BackgroundFetch.stop (s : ProxyState) : AsyncInvocation :=
  { calls := [cordovaCall s.meta "stop" {} []]
    state := s
    fetchChannels := 0
    result := promiseSettle }

/-- `finish()`: decorated with `@Cordova({ sync: true })`; one
fire-and-forget outbound call with no callbacks and no returned value. -/
def BackgroundFetch.finish (s : ProxyState) : SyncInvocation :=
  { calls := [cordovaCall s.meta "finish" { sync := true } []]
    state := s
    value := () }

/-- `status()`: decorated with bare `@Cordova()`; no plain arguments. -/
def BackgroundFetch.status (s : ProxyState) : AsyncInvocation :=
  { calls := [cordovaCall s.meta "status" {} []]
    state := s
    fetchChannels := 0
    result := promiseSettle }

/-- The declared body of `configure` in the source, absent the decorator:
`{ return; }`, which returns `undefined` for every argument. -/
def BackgroundFetch.configureDeclaredBody (_config : BackgroundFetchConfig) : JSValue :=
  JSValue.undefined

/-- The declared body of `start` in the source: `{ return; }`. -/
def BackgroundFetch.startDeclaredBody : JSValue := JSValue.undefined

/-- The declared body of `stop` in the source: `{ return; }`. -/
def BackgroundFetch.stopDeclaredBody : JSValue := JSValue.undefined

/-- The declared body of `finish` in the source: `{ }`, returning void. -/
def BackgroundFetch.finishDeclaredBody : Unit := ()

/-- The declared body of `status` in the source: `{ return; }`. -/
def BackgroundFetch.statusDeclaredBody : JSValue := JSValue.undefined

/-- The record with every field absent. -/
def emptyConfig : BackgroundFetchConfig := {}

/-- The defaults documented in the source's doc comments (and the spec):
`minimumFetchInterval` 15, `stopOnTerminate` true, `startOnBoot` false,
`forceReload` false.  Stated only so that NOT applying them is
expressible; the proxy layer never computes this function. -/
def applyDocumentedDefaults (c : BackgroundFetchConfig) : BackgroundFetchConfig :=
  { minimumFetchInterval := some (c.minimumFetchInterval.getD 15)
    stopOnTerminate := some (c.stopOnTerminate.getD true)
    startOnBoot := some (c.startOnBoot.getD false)
    forceReload := some (c.forceReload.getD false) }

/-- A completion-free prefix of capability events (in this model every
non-completion event is a fetch delivery) never settles the promise:
settlement is decided by the first completion callback alone. -/
theorem promiseSettle_fetch_prefix (n : Nat) (tail : List CapEvent) :
    promiseSettle (List.replicate n CapEvent.fetch ++ tail) = promiseSettle tail := by
  induction n with
  | zero => rfl
  | succ k ih => simpa [List.replicate_succ, promiseSettle] using ih

/-- Claim C1: `configure` forwards exactly the given configuration record
to the capability's `configure` entry point, placing the callbacks in the
reversed order (failure before success, swapped relative to the other
four methods), and the promise resolves when the capability invokes the
success callback. -/
theorem configure_forwards_record_reversed (c : BackgroundFetchConfig)
    (v : JSValue) (rest : List CapEvent) :
    (BackgroundFetch.configure backgroundFetch c).calls =
      [{ pluginRef := "BackgroundFetch", method := "configure",
         args := [BridgeArg.value (JSValue.config c),
                  BridgeArg.failureCb, BridgeArg.successCb] }] ∧
    (BackgroundFetch.configure backgroundFetch c).result
      (CapEvent.success v :: rest) = some (Except.ok v) := by
  exact ⟨rfl, rfl⟩

/-- Claim C2: for every error value, each of the four asynchronous
operations rejects with exactly that value when the capability invokes
its failure callback, with no transformation. -/
theorem failure_rejects_verbatim (c : BackgroundFetchConfig) (e : JSValue)
    (rest : List CapEvent) :
    (BackgroundFetch.configure backgroundFetch c).result
      (CapEvent.failure e :: rest) = some (Except.error e) ∧
    (BackgroundFetch.start backgroundFetch).result
      (CapEvent.failure e :: rest) = some (Except.error e) ∧
    (BackgroundFetch.stop backgroundFetch).result
      (CapEvent.failure e :: rest) = some (Except.error e) ∧
    (BackgroundFetch.status backgroundFetch).result
      (CapEvent.failure e :: rest) = some (Except.error e) := by
  exact ⟨rfl, rfl, rfl, rfl⟩

/-- Claim C3: `finish` performs exactly one synchronous forwarding call,
passes no success or failure callback (its argument list is empty), and
returns no value, for every proxy state. -/
theorem finish_sync_no_callbacks (s : ProxyState) :
    (BackgroundFetch.finish s).calls =
      [{ pluginRef := s.meta.pluginRef, method := "finish", args := [] }] ∧
    (BackgroundFetch.finish s).value = () ∧
    (BackgroundFetch.finish s).state = s := by
  exact ⟨rfl, rfl, rfl⟩

/-- Claim C4: `configure` forwards every record — the empty one included —
unmodified: the sole forwarded value is the record itself, the proxy state
is unchanged (nothing persisted), and the forwarding of the empty record
differs from what forwarding the documented-defaults-filled record would
be, so the documented defaults are not applied by this layer. -/
theorem configure_unmodified_no_defaults (c : BackgroundFetchConfig) :
    (BackgroundFetch.configure backgroundFetch c).calls.map OutCall.args =
      [[BridgeArg.value (JSValue.config c),
        BridgeArg.failureCb, BridgeArg.successCb]] ∧
    (BackgroundFetch.configure backgroundFetch c).state = backgroundFetch ∧
    (BackgroundFetch.configure backgroundFetch emptyConfig).calls ≠
      (BackgroundFetch.configure backgroundFetch
        (applyDocumentedDefaults emptyConfig)).calls := by
  refine ⟨rfl, rfl, ?_⟩
  decide

/-- Claim C5: `start` and `stop` forward with no positional arguments
beyond the two callbacks, and each resolves with no payload when the
capability invokes the success callback with no payload. -/
theorem start_stop_no_arguments (rest : List CapEvent) :
    (BackgroundFetch.start backgroundFetch).calls =
      [{ pluginRef := "BackgroundFetch", method := "start",
         args := [BridgeArg.successCb, BridgeArg.failureCb] }] ∧
    (BackgroundFetch.stop backgroundFetch).calls =
      [{ pluginRef := "BackgroundFetch", method := "stop",
         args := [BridgeArg.successCb, BridgeArg.failureCb] }] ∧
    (BackgroundFetch.start backgroundFetch).result
      (CapEvent.success JSValue.undefined :: rest) =
        some (Except.ok JSValue.undefined) ∧
    (BackgroundFetch.stop backgroundFetch).result
      (CapEvent.success JSValue.undefined :: rest) =
        some (Except.ok JSValue.undefined) := by
  exact ⟨rfl, rfl, rfl, rfl⟩

/-- Claim C6: `status` resolves with exactly the value the capability
reports through its success callback, opaque and unmodified. -/
theorem status_resolves_opaque (v : JSValue) (rest : List CapEvent) :
    (BackgroundFetch.status backgroundFetch).calls =
      [{ pluginRef := "BackgroundFetch", method := "status",
         args := [BridgeArg.successCb, BridgeArg.failureCb] }] ∧
    (BackgroundFetch.status backgroundFetch).result
      (CapEvent.success v :: rest) = some (Except.ok v) := by
  exact ⟨rfl, rfl⟩

/-- Claim C7: no state is retained between calls: `configure` leaves the
proxy state unchanged, so a second `configure` from the post-state of a
first is identical to a second `configure` from the initial state, each
call forwarding its own record. -/
theorem configure_sequential_independent (s : ProxyState)
    (c1 c2 : BackgroundFetchConfig) :
    (BackgroundFetch.configure s c1).state = s ∧
    BackgroundFetch.configure (BackgroundFetch.configure s c1).state c2 =
      BackgroundFetch.configure s c2 ∧
    (BackgroundFetch.configure s c1).calls.map OutCall.args =
      [[BridgeArg.value (JSValue.config c1),
        BridgeArg.failureCb, BridgeArg.successCb]] ∧
    (BackgroundFetch.configure (BackgroundFetch.configure s c1).state c2).calls.map
        OutCall.args =
      [[BridgeArg.value (JSValue.config c2),
        BridgeArg.failureCb, BridgeArg.successCb]] := by
  exact ⟨rfl, rfl, rfl, rfl⟩

/-- Claim C8: every asynchronous invocation issues exactly one outbound
call; the promise settles on the first completion callback alone — later
capability callbacks, arbitrary in number, never change the settlement,
and fetch-event deliveries never settle it — and `configure` alone
registers one auxiliary recurring fetch-event channel. -/
theorem one_call_one_settlement (s : ProxyState) (c : BackgroundFetchConfig)
    (n : Nat) (v e : JSValue) (post : List CapEvent) :
    (BackgroundFetch.configure s c).calls.length = 1 ∧
    (BackgroundFetch.start s).calls.length = 1 ∧
    (BackgroundFetch.stop s).calls.length = 1 ∧
    (BackgroundFetch.status s).calls.length = 1 ∧
    (BackgroundFetch.configure s c).result
      (List.replicate n CapEvent.fetch ++ CapEvent.success v :: post) =
        some (Except.ok v) ∧
    (BackgroundFetch.configure s c).result
      (List.replicate n CapEvent.fetch ++ CapEvent.failure e :: post) =
        some (Except.error e) ∧
    (BackgroundFetch.configure s c).fetchChannels = 1 ∧
    (BackgroundFetch.start s).fetchChannels = 0 ∧
    (BackgroundFetch.stop s).fetchChannels = 0 ∧
    (BackgroundFetch.status s).fetchChannels = 0 := by
  refine ⟨rfl, rfl, rfl, rfl, ?_, ?_, rfl, rfl, rfl, rfl⟩
  · simpa [BackgroundFetch.configure] using
      promiseSettle_fetch_prefix n (CapEvent.success v :: post)
  · simpa [BackgroundFetch.configure] using
      promiseSettle_fetch_prefix n (CapEvent.failure e :: post)

/-- Claim C9: the registration metadata names the capability
`BackgroundFetch` and declares exactly the platforms `Android` and `iOS`,
and every operation of the proxy addresses that single capability name. -/
theorem fixed_capability_name_platforms (c : BackgroundFetchConfig) :
    backgroundFetchPluginMeta.pluginRef = "BackgroundFetch" ∧
    backgroundFetchPluginMeta.platforms = ["Android", "iOS"] ∧
    (BackgroundFetch.configure backgroundFetch c).calls.map OutCall.pluginRef =
      ["BackgroundFetch"] ∧
    (BackgroundFetch.start backgroundFetch).calls.map OutCall.pluginRef =
      ["BackgroundFetch"] ∧
    (BackgroundFetch.stop backgroundFetch).calls.map OutCall.pluginRef =
      ["BackgroundFetch"] ∧
    (BackgroundFetch.finish backgroundFetch).calls.map OutCall.pluginRef =
      ["BackgroundFetch"] ∧
    (BackgroundFetch.status backgroundFetch).calls.map OutCall.pluginRef =
      ["BackgroundFetch"] := by
  exact ⟨rfl, rfl, rfl, rfl, rfl, rfl, rfl⟩

/-- Claim C10: the declared bodies of all five methods are no-ops: as
total functions they raise nothing, the four promise-typed ones return
`undefined` for every argument, and `finish` returns nothing. -/
theorem declared_bodies_noop (c : BackgroundFetchConfig) :
    BackgroundFetch.configureDeclaredBody c = JSValue.undefined ∧
    BackgroundFetch.startDeclaredBody = JSValue.undefined ∧
    BackgroundFetch.stopDeclaredBody = JSValue.undefined ∧
    BackgroundFetch.statusDeclaredBody = JSValue.undefined ∧
    BackgroundFetch.finishDeclaredBody = () := by
  exact ⟨rfl, rfl, rfl, rfl, rfl⟩

end BackgroundFetchSpec
